import Mathlib

/-!
Shallow embedding of the `TranslationService` of the portfolio repository
(`src/app/core/services/translation.service.ts`, with the data model in
`src/app/core/models/translation.model.ts`).

The service holds three signals: the current language, the current
translation bundle and a loading flag.  Its operations are embedded as pure
functions from a state to a new state together with a trace of observable
side effects (storage reads and writes, loading-flag transitions and the
start of a remote fetch), in the order the TypeScript code performs them.
The execution environment (browser vs. server, the stored preference, the
navigator locale) and the outcome of an HTTP fetch are passed in explicitly.

Runtime language values are strings: the TypeScript type `Language` is
erased at runtime, and `getInitialLanguage` casts the raw stored string to
`Language` without a membership check, so an arbitrary string can flow into
the current-language signal.
-/

namespace Portfolio

/-- The supported language codes, from `translation.model.ts`:
`SUPPORTED_LANGUAGES = ["de", "en"] as const`. -/
def SUPPORTED_LANGUAGES : List String := ["de", "en"]

/-- A translation bundle, from the `Translations` interface in
`translation.model.ts`: it has a single string field `placeholder`. -/
structure Translations where
  placeholder : String
  deriving DecidableEq, Repr

/-- Modelled from the spec: the bundled default (German) translation bundle,
statically imported from `public/i18n/de.json`, a data file that is not among
the provided sources.  The spec only requires that a default bundle exists and
is embedded in the artifact; its concrete text content is irrelevant to every
claim, which compare bundles against this constant, never inspect it. -/
def defaultTranslations : Translations := { placeholder := "Platzhalter" }

/-- Observable side effects of the service, in program order. -/
inductive Event where
  | storageRead (key : String)
  | storageWrite (key value : String)
  | langUpdate (lang : String)
  | loadingSet (value : Bool)
  | fetchStart (url : String)
  deriving DecidableEq, Repr

/-- The execution environment seen by the service: the platform check
`isPlatformBrowser`, the value of `localStorage.getItem "language"` (`none`
models a `null` return), and `navigator.language`. -/
structure Env where
  isBrowser : Bool
  storedLanguage : Option String
  navigatorLanguage : String
  deriving DecidableEq, Repr

/-- The three state signals of `TranslationService`:
`_currentLanguage`, `_translations` and `_isLoading`. -/
structure ServiceState where
  currentLanguage : String
  translations : Translations
  isLoading : Bool
  deriving DecidableEq, Repr

/-- The HTTP transport: fetching `/i18n/<lang>.json` either yields a parsed
bundle (`some`) or fails for any reason, network error, malformed content or
non-success status alike (`none`, the rejected-promise case). -/
def Fetch : Type := String → Option Translations

/-- The URL requested for a language, `/i18n/<lang>.json`. -/
def bundleUrl (lang : String) : String := "/i18n/" ++ lang ++ ".json"

/-- Embedding of the private method `loadTranslations`.  For `"de"` it sets
the bundle to the bundled default and returns at once; otherwise it sets the
loading flag, fetches the bundle, on success stores it and on failure falls
back to the default bundle, and finally clears the loading flag. -/
def loadTranslations (fetch : Fetch) (lang : String) (s : ServiceState) :
    ServiceState × List Event :=
  if lang = "de" then
    ({ s with translations := defaultTranslations }, [])
  else
    match fetch lang with
    | some t =>
        ({ s with translations := t, isLoading := false },
         [Event.loadingSet true, Event.fetchStart (bundleUrl lang),
          Event.loadingSet false])
    | none =>
        ({ s with translations := defaultTranslations, isLoading := false },
         [Event.loadingSet true, Event.fetchStart (bundleUrl lang),
          Event.loadingSet false])

/-- Embedding of `setLanguage`.  Equal language: immediate return with no
effect.  Otherwise: update the current-language signal, persist the
preference when in a browser, then run the load algorithm. -/
def setLanguage (env : Env) (fetch : Fetch) (lang : String) (s : ServiceState) :
    ServiceState × List Event :=
  if lang = s.currentLanguage then
    (s, [])
  else
    let s1 : ServiceState := { s with currentLanguage := lang }
    let storeEv : List Event :=
      if env.isBrowser then [Event.storageWrite "language" lang] else []
    let load := loadTranslations fetch lang s1
    (load.1, Event.langUpdate lang :: storeEv ++ load.2)

/-- Embedding of `toggleLanguage`: the target is `"en"` exactly when the
current language is `"de"`, and `"de"` otherwise; then delegate to
`setLanguage`. -/
def toggleLanguage (env : Env) (fetch : Fetch) (s : ServiceState) :
    ServiceState × List Event :=
  let newLang : String := if s.currentLanguage = "de" then "en" else "de"
  setLanguage env fetch newLang s

/-- Locale detection of `getInitialLanguage`: take the first two characters
of `navigator.language` (the `slice(0, 2)` of the source) and select them if
supported, else the fallback `"de"`. -/
def localeOrFallback (env : Env) : String :=
  let browserLang := env.navigatorLanguage.take 2
  if browserLang ∈ SUPPORTED_LANGUAGES then browserLang else "de"

/-- Embedding of the private method `getInitialLanguage`.  On the server the
result is `"de"` with no storage access.  In a browser the stored value is
read; a truthy stored string (non-null and non-empty, the `if (stored)` of
the source) is returned as is, with no membership check; otherwise the
navigator locale is consulted, with `"de"` as last resort. -/
def getInitialLanguage (env : Env) : String × List Event :=
  if env.isBrowser = false then
    ("de", [])
  else
    match env.storedLanguage with
    | some stored =>
        if stored = "" then (localeOrFallback env, [Event.storageRead "language"])
        else (stored, [Event.storageRead "language"])
    | none => (localeOrFallback env, [Event.storageRead "language"])

/-- Service construction: the signals start as
`(getInitialLanguage (), defaultTranslations, false)` and the constructor
immediately runs `loadTranslations` on the initial language. -/
def initService (env : Env) (fetch : Fetch) : ServiceState × List Event :=
  let init := getInitialLanguage env
  let s0 : ServiceState :=
    { currentLanguage := init.1, translations := defaultTranslations,
      isLoading := false }
  let load := loadTranslations fetch init.1 s0
  (load.1, init.2 ++ load.2)

/-- The bundle that corresponds to a language under a given transport: the
default bundle for the bundled language `"de"`, and the fetched bundle with
fallback to the default on failure for every other language. -/
def expectedBundle (fetch : Fetch) (lang : String) : Translations :=
  if lang = "de" then defaultTranslations
  else (fetch lang).getD defaultTranslations

/-- The states the service can actually be in: the freshly constructed state,
closed under `setLanguage` with a supported code (the static type of the
argument) and under `toggleLanguage`. -/
inductive Reachable (env : Env) (fetch : Fetch) : ServiceState → Prop where
  | init : Reachable env fetch (initService env fetch).1
  | set (L : String) (hL : L ∈ SUPPORTED_LANGUAGES) {s : ServiceState} :
      Reachable env fetch s → Reachable env fetch (setLanguage env fetch L s).1
  | toggle {s : ServiceState} :
      Reachable env fetch s → Reachable env fetch (toggleLanguage env fetch s).1

/-- A browser environment with no stored preference and a German locale,
used as a concrete test fixture. -/
def envPlain : Env :=
  { isBrowser := true, storedLanguage := none, navigatorLanguage := "de-DE" }

/-- A browser environment whose stored preference is the unsupported
string `"fr"`. -/
def envStoredFr : Env :=
  { isBrowser := true, storedLanguage := some "fr",
    navigatorLanguage := "de-DE" }

/-- A browser environment whose stored preference is the unsupported
string `"sv"`. -/
def envStoredSv : Env :=
  { isBrowser := true, storedLanguage := some "sv",
    navigatorLanguage := "de-DE" }

/-- A server (non-browser) environment with an English locale. -/
def envServer : Env :=
  { isBrowser := false, storedLanguage := some "en",
    navigatorLanguage := "en-US" }

/-- A browser environment with no stored preference and an unsupported
(French) locale. -/
def envFrLocale : Env :=
  { isBrowser := true, storedLanguage := none, navigatorLanguage := "fr-FR" }

/-- A transport for which every fetch succeeds with a fixed bundle. -/
def fetchOk : Fetch := fun _ => some { placeholder := "hello" }

/-- A transport for which every fetch fails. -/
def fetchFail : Fetch := fun _ => none

/-- The freshly constructed service state for the German language. -/
def stateDe : ServiceState :=
  { currentLanguage := "de", translations := defaultTranslations,
    isLoading := false }

/-- The load algorithm never changes the current-language signal. -/
theorem loadTranslations_currentLanguage (fetch : Fetch) (lang : String)
    (s : ServiceState) :
    ((loadTranslations fetch lang s).1).currentLanguage = s.currentLanguage := by
  unfold loadTranslations
  split
  · rfl
  · cases fetch lang <;> rfl

/-- After the load algorithm runs for a language, the bundle is the one that
corresponds to that language under the given transport. -/
theorem loadTranslations_translations (fetch : Fetch) (lang : String)
    (s : ServiceState) :
    ((loadTranslations fetch lang s).1).translations = expectedBundle fetch lang := by
  unfold loadTranslations expectedBundle
  split
  · rfl
  · cases fetch lang <;> rfl

/-- The load algorithm ends with the loading flag clear for a remote
language, and leaves it untouched for the bundled language. -/
theorem loadTranslations_isLoading (fetch : Fetch) (lang : String)
    (s : ServiceState) (h : ¬ lang = "de") :
    ((loadTranslations fetch lang s).1).isLoading = false := by
  unfold loadTranslations
  rw [if_neg h]
  cases fetch lang <;> rfl

/-- Switching to a genuinely new language sets the current-language signal
to it. -/
theorem setLanguage_new_currentLanguage (env : Env) (fetch : Fetch)
    (L : String) (s : ServiceState) (h : ¬ L = s.currentLanguage) :
    ((setLanguage env fetch L s).1).currentLanguage = L := by
  unfold setLanguage
  rw [if_neg h]
  simp [loadTranslations_currentLanguage]

/-- Switching to a genuinely new language ends with the bundle that
corresponds to it under the given transport. -/
theorem setLanguage_new_translations (env : Env) (fetch : Fetch)
    (L : String) (s : ServiceState) (h : ¬ L = s.currentLanguage) :
    ((setLanguage env fetch L s).1).translations = expectedBundle fetch L := by
  unfold setLanguage
  rw [if_neg h]
  simp [loadTranslations_translations]

/-- Unfolding of `toggleLanguage` to its delegation to `setLanguage`. -/
theorem toggleLanguage_eq (env : Env) (fetch : Fetch) (s : ServiceState) :
    toggleLanguage env fetch s
      = setLanguage env fetch
          (if s.currentLanguage = "de" then "en" else "de") s := rfl

/-- One toggle from the German state: the current language becomes `"en"`
and the bundle becomes the one corresponding to `"en"`. -/
theorem toggleLanguage_from_de (env : Env) (fetch : Fetch) (s : ServiceState)
    (h : s.currentLanguage = "de") :
    ((toggleLanguage env fetch s).1).currentLanguage = "en" ∧
    ((toggleLanguage env fetch s).1).translations = expectedBundle fetch "en" := by
  rw [toggleLanguage_eq, if_pos h]
  refine ⟨setLanguage_new_currentLanguage env fetch "en" s ?_,
    setLanguage_new_translations env fetch "en" s ?_⟩ <;>
    rw [h] <;> decide

/-- One toggle from any non-German state: the current language becomes
`"de"` and the bundle becomes the default bundle. -/
theorem toggleLanguage_from_other (env : Env) (fetch : Fetch)
    (s : ServiceState) (h : ¬ s.currentLanguage = "de") :
    ((toggleLanguage env fetch s).1).currentLanguage = "de" ∧
    ((toggleLanguage env fetch s).1).translations = expectedBundle fetch "de" := by
  rw [toggleLanguage_eq, if_neg h]
  exact ⟨setLanguage_new_currentLanguage env fetch "de" s (fun hh => h hh.symm),
    setLanguage_new_translations env fetch "de" s (fun hh => h hh.symm)⟩

/-- `setLanguage` preserves the correspondence between the bundle in state
and the current language. -/
theorem setLanguage_translations_inv (env : Env) (fetch : Fetch) (L : String)
    (s : ServiceState)
    (h : s.translations = expectedBundle fetch s.currentLanguage) :
    ((setLanguage env fetch L s).1).translations
      = expectedBundle fetch ((setLanguage env fetch L s).1).currentLanguage := by
  unfold setLanguage
  split
  · exact h
  · rw [loadTranslations_translations, loadTranslations_currentLanguage]

/-- Invariant of every reachable state: the bundle in state corresponds to
the current language under the given transport, the documented state
invariant of the manager. -/
theorem reachable_translations (env : Env) (fetch : Fetch)
    (s : ServiceState) (h : Reachable env fetch s) :
    s.translations = expectedBundle fetch s.currentLanguage := by
  induction h with
  | init =>
      unfold initService
      rw [loadTranslations_translations, loadTranslations_currentLanguage]
  | set L hL hs ih => exact setLanguage_translations_inv env fetch L _ ih
  | toggle hs ih =>
      rw [toggleLanguage_eq]
      exact setLanguage_translations_inv env fetch _ _ ih

/-- C1, counterexample: with the stored preference `"fr"`, a string outside
the supported set, browser initialization makes `"fr"` the current language;
the stored value is neither rejected nor normalized to the fallback, because
`getInitialLanguage` returns any truthy stored string without a membership
check. -/
theorem C1_stored_not_validated :
    "fr" ∉ SUPPORTED_LANGUAGES ∧
    (initService envStoredFr fetchFail).1.currentLanguage = "fr" := by
  constructor
  · decide
  · rfl

/-- C1, amended: during initialization in a browser context, a stored
language preference is selected whenever it is present and non-empty,
with no validation against the supported set; only an absent or empty
stored value falls through to locale detection and the fallback. -/
theorem C1_stored_selected_verbatim (env : Env) (fetch : Fetch)
    (stored : String) (hb : env.isBrowser = true)
    (hs : env.storedLanguage = some stored) (hne : stored ≠ "") :
    (initService env fetch).1.currentLanguage = stored := by
  simp [initService, getInitialLanguage, loadTranslations_currentLanguage,
    hb, hs, hne]

/-- C1, witness for the amended statement: the stored string `"sv"` is
present and non-empty, and initialization selects it verbatim. -/
theorem C1_stored_selected_verbatim_witness :
    envStoredSv.isBrowser = true ∧
    envStoredSv.storedLanguage = some "sv" ∧
    "sv" ≠ "" ∧
    (initService envStoredSv fetchFail).1.currentLanguage = "sv" :=
  ⟨rfl, rfl, by decide,
    C1_stored_selected_verbatim envStoredSv fetchFail "sv" rfl rfl (by decide)⟩

/-- C2: for every supported language code `L` and every starting state,
after `setLanguage L` completes the current language equals `L`: the
equal-language branch already satisfies it, and otherwise the signal is set
to `L` and the load algorithm never changes it. -/
theorem C2_setLanguage_sets_currentLanguage (env : Env) (fetch : Fetch)
    (L : String) (s : ServiceState) (hL : L ∈ SUPPORTED_LANGUAGES) :
    ((setLanguage env fetch L s).1).currentLanguage = L := by
  unfold setLanguage
  split
  · next h => exact h.symm
  · simp [loadTranslations_currentLanguage]

/-- C2, witness: switching to the supported language `"en"` from the
initial German state ends with current language `"en"`. -/
theorem C2_setLanguage_sets_currentLanguage_witness :
    "en" ∈ SUPPORTED_LANGUAGES ∧
    ((setLanguage envPlain fetchOk "en" stateDe).1).currentLanguage = "en" :=
  ⟨by decide,
    C2_setLanguage_sets_currentLanguage envPlain fetchOk "en" stateDe
      (by decide)⟩

/-- C3: calling `setLanguage` with the current language is a no-op: the
state is returned unchanged (same language, bundle and loading flag) and the
effect trace is empty, so no storage write and no fetch occur. -/
theorem C3_setLanguage_same_noop (env : Env) (fetch : Fetch)
    (s : ServiceState) :
    setLanguage env fetch s.currentLanguage s = (s, []) := by
  simp [setLanguage]

/-- C4: loading the fallback language `"de"` sets the bundle to the bundled
default synchronously and produces no effects at all, in particular no
fetch start and no loading-flag transition, and it leaves the loading flag
with its prior value, so selecting the fallback keeps `isLoading` false. -/
theorem C4_load_fallback_synchronous (fetch : Fetch) (s : ServiceState) :
    loadTranslations fetch "de" s
        = ({ s with translations := defaultTranslations }, [])
      ∧ ((loadTranslations fetch "de" s).1).isLoading = s.isLoading := by
  refine ⟨?_, ?_⟩ <;> simp [loadTranslations]

/-- C5: for a non-fallback supported language whose fetch fails, switching
to it completes with the default bundle, the current language still equal to
the requested language (the selection is not reverted), and the loading flag
clear.  The embedding is a total function, so completion without a raised
error is inherent: the failure is consumed inside the load algorithm. -/
theorem C5_fetch_failure_fallback (env : Env) (fetch : Fetch) (L : String)
    (s : ServiceState) (hL : L ∈ SUPPORTED_LANGUAGES) (hde : ¬ L = "de")
    (hfail : fetch L = none) (hnew : ¬ L = s.currentLanguage) :
    ((setLanguage env fetch L s).1).translations = defaultTranslations ∧
    ((setLanguage env fetch L s).1).currentLanguage = L ∧
    ((setLanguage env fetch L s).1).isLoading = false := by
  refine ⟨?_, setLanguage_new_currentLanguage env fetch L s hnew, ?_⟩
  · rw [setLanguage_new_translations env fetch L s hnew]
    unfold expectedBundle
    rw [if_neg hde, hfail]
    rfl
  · unfold setLanguage
    rw [if_neg hnew]
    simp [loadTranslations_isLoading fetch L _ hde]

/-- C5, witness: switching from German to `"en"` under a failing transport
ends with the default bundle, current language `"en"` and no loading. -/
theorem C5_fetch_failure_fallback_witness :
    "en" ∈ SUPPORTED_LANGUAGES ∧ ¬ "en" = "de" ∧ fetchFail "en" = none ∧
    ¬ "en" = stateDe.currentLanguage ∧
    (((setLanguage envPlain fetchFail "en" stateDe).1).translations
        = defaultTranslations ∧
      ((setLanguage envPlain fetchFail "en" stateDe).1).currentLanguage = "en" ∧
      ((setLanguage envPlain fetchFail "en" stateDe).1).isLoading = false) :=
  ⟨by decide, by decide, rfl, by decide,
    C5_fetch_failure_fallback envPlain fetchFail "en" stateDe
      (by decide) (by decide) rfl (by decide)⟩

/-- C6: within one call of `setLanguage` to a genuinely new, non-bundled
language in a browser context, the effect trace is exactly the
current-language update, then the storage write, then the loading-flag set
and the fetch start: the language update and the storage write precede the
beginning of the fetch. -/
theorem C6_update_before_fetch (env : Env) (fetch : Fetch) (L : String)
    (s : ServiceState) (hnew : ¬ L = s.currentLanguage) (hde : ¬ L = "de")
    (hb : env.isBrowser = true) :
    (setLanguage env fetch L s).2 =
      [Event.langUpdate L, Event.storageWrite "language" L,
       Event.loadingSet true, Event.fetchStart (bundleUrl L),
       Event.loadingSet false] := by
  cases h : fetch L <;>
    simp [setLanguage, loadTranslations, hnew, hde, hb, h]

/-- C6, witness: switching from German to `"en"` in a browser produces the
trace with the language update first and the fetch start after the storage
write. -/
theorem C6_update_before_fetch_witness :
    ¬ "en" = stateDe.currentLanguage ∧ ¬ "en" = "de" ∧
    envPlain.isBrowser = true ∧
    (setLanguage envPlain fetchOk "en" stateDe).2 =
      [Event.langUpdate "en", Event.storageWrite "language" "en",
       Event.loadingSet true, Event.fetchStart (bundleUrl "en"),
       Event.loadingSet false] :=
  ⟨by decide, by decide, rfl,
    C6_update_before_fetch envPlain fetchOk "en" stateDe
      (by decide) (by decide) rfl⟩

/-- C7: construction in a non-browser (server) context yields the fallback
language `"de"`, the default bundle and an empty effect trace, so in
particular no storage read ever happens; and the whole result is
independent of the navigator locale, which is ignored entirely. -/
theorem C7_server_init (env : Env) (fetch : Fetch)
    (h : env.isBrowser = false) :
    initService env fetch =
      ({ currentLanguage := "de", translations := defaultTranslations,
         isLoading := false }, []) ∧
    ∀ loc : String,
      initService { env with navigatorLanguage := loc } fetch
        = initService env fetch := by
  constructor
  · simp [initService, getInitialLanguage, loadTranslations, h]
  · intro loc
    simp [initService, getInitialLanguage, loadTranslations, h]

/-- C7, witness: a server environment that even carries a stored preference
and an English locale still initializes to German with no effects, and
changing its locale changes nothing. -/
theorem C7_server_init_witness :
    envServer.isBrowser = false ∧
    initService envServer fetchFail =
      ({ currentLanguage := "de", translations := defaultTranslations,
         isLoading := false }, []) ∧
    initService { envServer with navigatorLanguage := "sv-SE" } fetchFail
      = initService envServer fetchFail :=
  ⟨rfl, (C7_server_init envServer fetchFail rfl).1,
    (C7_server_init envServer fetchFail rfl).2 "sv-SE"⟩

/-- C8: browser construction with no stored preference and a locale whose
first two characters are not a supported language yields the fallback
language `"de"` and the default bundle, and the effect trace is only the
storage read: no fetch start occurs. -/
theorem C8_unsupported_locale_fallback (env : Env) (fetch : Fetch)
    (hb : env.isBrowser = true) (hs : env.storedLanguage = none)
    (hloc : env.navigatorLanguage.take 2 ∉ SUPPORTED_LANGUAGES) :
    initService env fetch =
      ({ currentLanguage := "de", translations := defaultTranslations,
         isLoading := false }, [Event.storageRead "language"]) ∧
    ∀ url : String, Event.fetchStart url ∉ (initService env fetch).2 := by
  have hmain : initService env fetch =
      ({ currentLanguage := "de", translations := defaultTranslations,
         isLoading := false }, [Event.storageRead "language"]) := by
    simp [initService, getInitialLanguage, localeOrFallback,
      loadTranslations, hb, hs, hloc]
  refine ⟨hmain, ?_⟩
  intro url
  rw [hmain]
  simp

/-- C8, witness: a browser with nothing stored and the locale `"fr-FR"`
initializes to German, the default bundle, and no fetch start; the trace is
the storage read alone. -/
theorem C8_unsupported_locale_fallback_witness :
    envFrLocale.isBrowser = true ∧ envFrLocale.storedLanguage = none ∧
    envFrLocale.navigatorLanguage.take 2 ∉ SUPPORTED_LANGUAGES ∧
    (initService envFrLocale fetchOk =
      ({ currentLanguage := "de", translations := defaultTranslations,
         isLoading := false }, [Event.storageRead "language"]) ∧
     Event.fetchStart (bundleUrl "fr") ∉ (initService envFrLocale fetchOk).2) :=
  ⟨rfl, rfl, by decide,
    (C8_unsupported_locale_fallback envFrLocale fetchOk rfl rfl (by decide)).1,
    (C8_unsupported_locale_fallback envFrLocale fetchOk rfl rfl
      (by decide)).2 (bundleUrl "fr")⟩

/-- C9: from any reachable state whose current language is supported, two
successive toggles, each load fully resolved in between (the embedding is
sequential, so each call completes before the next), restore both the
original current language and the original bundle. -/
theorem C9_toggle_twice_roundtrip (env : Env) (fetch : Fetch)
    (s : ServiceState) (hr : Reachable env fetch s)
    (hsup : s.currentLanguage ∈ SUPPORTED_LANGUAGES) :
    ((toggleLanguage env fetch (toggleLanguage env fetch s).1).1).currentLanguage
        = s.currentLanguage ∧
    ((toggleLanguage env fetch (toggleLanguage env fetch s).1).1).translations
        = s.translations := by
  have hinv := reachable_translations env fetch s hr
  have hmem : s.currentLanguage = "de" ∨ s.currentLanguage = "en" := by
    simpa [SUPPORTED_LANGUAGES] using hsup
  rcases hmem with h | h
  · obtain ⟨h1c, _⟩ := toggleLanguage_from_de env fetch s h
    obtain ⟨h2c, h2t⟩ := toggleLanguage_from_other env fetch
      (toggleLanguage env fetch s).1 (by rw [h1c]; decide)
    refine ⟨by rw [h2c, h], ?_⟩
    rw [h2t, hinv, h]
  · obtain ⟨h1c, _⟩ := toggleLanguage_from_other env fetch s
      (by rw [h]; decide)
    obtain ⟨h2c, h2t⟩ := toggleLanguage_from_de env fetch
      (toggleLanguage env fetch s).1 h1c
    refine ⟨by rw [h2c, h], ?_⟩
    rw [h2t, hinv, h]

/-- C9, witness: the freshly constructed German state is reachable, its
language is supported, and a double toggle under an always-succeeding
transport restores its language and bundle. -/
theorem C9_toggle_twice_roundtrip_witness :
    (initService envPlain fetchOk).1.currentLanguage ∈ SUPPORTED_LANGUAGES ∧
    (((toggleLanguage envPlain fetchOk
          (toggleLanguage envPlain fetchOk
            (initService envPlain fetchOk).1).1).1).currentLanguage
        = (initService envPlain fetchOk).1.currentLanguage ∧
      ((toggleLanguage envPlain fetchOk
          (toggleLanguage envPlain fetchOk
            (initService envPlain fetchOk).1).1).1).translations
        = (initService envPlain fetchOk).1.translations) :=
  ⟨by decide,
    C9_toggle_twice_roundtrip envPlain fetchOk
      (initService envPlain fetchOk).1 Reachable.init (by decide)⟩

/-- C10: for every state, the toggle target is `"en"` exactly when the
current language is `"de"` and `"de"` in every other case, and the language
after the toggle completes is always a member of the supported set, even
when the prior current language was an unsupported string. -/
theorem C10_toggle_lands_in_supported_set (env : Env) (fetch : Fetch)
    (s : ServiceState) :
    ((toggleLanguage env fetch s).1).currentLanguage
        = (if s.currentLanguage = "de" then "en" else "de") ∧
    ((toggleLanguage env fetch s).1).currentLanguage ∈ SUPPORTED_LANGUAGES := by
  have hc : ((toggleLanguage env fetch s).1).currentLanguage
      = (if s.currentLanguage = "de" then "en" else "de") := by
    by_cases hd : s.currentLanguage = "de"
    · rw [if_pos hd]
      exact (toggleLanguage_from_de env fetch s hd).1
    · rw [if_neg hd]
      exact (toggleLanguage_from_other env fetch s hd).1
  refine ⟨hc, ?_⟩
  rw [hc]
  by_cases hd : s.currentLanguage = "de" <;> simp [hd, SUPPORTED_LANGUAGES]

end Portfolio
